import Mathlib

/-!
Verification of the bidirectional state-mapping engine of the domain
resource adapter (internal/services/domain/helpers.go and
internal/services/domain/order_domain.go).

The Go code manipulates untyped configuration maps
(map[string]interface{}).  These are embedded as association lists from
string keys to a dynamic value type mirroring the run-time types the
source actually stores and asserts.  Go panics (failed type assertions
without the ok-form, nil pointer dereferences) are modelled with
Except String; functions that cannot panic keep pure types.
-/

namespace ScalewayDomain

/-- Dynamic value stored in a Go map[string]interface{} entry, covering the
run-time types the source stores or asserts: string, bool, float64,
uint32, a non-nil nested map, and a nil map stored in a non-nil
interface.  float64 payloads are modelled at integral values (Int); no
claim in this development depends on a non-integral float. -/
inductive Value where
  | str (s : String)
  | bool (b : Bool)
  | float (intVal : Int)
  | uint32 (n : Nat)
  | vmap (entries : List (String × Value))
  | nilMap
deriving Repr

/-- A Go map[string]interface{}: modelled as an association list.  The
source writes each key at most once, so first-match lookup agrees with Go
map semantics. -/
abbrev FlatMap := List (String × Value)

/-- Map indexing m[key]: first entry with a matching key. -/
def lookup : FlatMap → String → Option Value
  | [], _ => none
  | (k, v) :: rest, key => if k == key then some v else lookup rest key

/-- Removes every entry with the given key (used only to state that a
field of the input map does not influence a result). -/
def eraseKey (m : FlatMap) (key : String) : FlatMap :=
  m.filter (fun p => p.1 != key)

/-- Models the Go ok-form type assertion v, ok := x.(map[string]interface\x7b\x7d):
it succeeds both on a non-nil and on a nil map value (returning the nil
map), and fails on any other dynamic type or on an absent key. -/
def asGoMap : Option Value → Option (Option FlatMap)
  | some (Value.vmap entries) => some (some entries)
  | some Value.nilMap => some none
  | _ => none

/-- Models the Go type assertion x.(string) without the ok-form: panics
unless the key is present with a string value. -/
def goAssertString (v : Option Value) : Except String String :=
  match v with
  | some (Value.str s) => Except.ok s
  | _ => Except.error "interface conversion: value is not a string"

/-- Models the Go ok-form assertion v, ok := x.(string) followed by use of
v only when ok: the value when present as a string, none otherwise. -/
def lookupOptString (m : FlatMap) (key : String) : Option String :=
  match lookup m key with
  | some (Value.str v) => some v
  | _ => none

/-- Models the Go ok-form assertion v, ok := x.(bool): the value when
present as a bool, false otherwise (the source always defaults to false). -/
def lookupBool (m : FlatMap) (key : String) : Bool :=
  match lookup m key with
  | some (Value.bool v) => v
  | _ => false

/-- A parsed Go time.Time is represented by the RFC 3339 text it was
parsed from.  The stdlib time package is outside the excerpt; only
acceptance/rejection of the textual form matters to the claims proved
here, never the value of a formatted time. -/
abbrev GoTime := String

/-- Consumes exactly n ASCII digits from the front of the character list. -/
def consumeDigits : Nat → List Char → Option (List Char)
  | 0, cs => some cs
  | _ + 1, [] => none
  | n + 1, c :: cs => if c.isDigit then consumeDigits n cs else none

/-- Consumes one expected literal character. -/
def consumeChar (expected : Char) : List Char → Option (List Char)
  | [] => none
  | c :: cs => if c == expected then some cs else none

/-- Drops a maximal run of ASCII digits. -/
def dropDigits : List Char → List Char
  | [] => []
  | c :: cs => if c.isDigit then dropDigits cs else c :: cs

/-- Consumes an optional fractional-seconds part: a dot followed by at
least one digit. -/
def consumeFrac : List Char → Option (List Char)
  | '.' :: rest =>
    match rest with
    | c :: _ => if c.isDigit then some (dropDigits rest) else none
    | [] => none
  | cs => some cs

/-- Consumes a numeric UTC offset or the literal Z. -/
def consumeZone : List Char → Option (List Char)
  | 'Z' :: rest => some rest
  | '+' :: rest =>
    (consumeDigits 2 rest).bind (fun cs => (consumeChar ':' cs).bind (consumeDigits 2))
  | '-' :: rest =>
    (consumeDigits 2 rest).bind (fun cs => (consumeChar ':' cs).bind (consumeDigits 2))
  | _ => none

/-- Models the Go stdlib call time.Parse(time.RFC3339, s) (the stdlib is
outside the excerpt): accepts the RFC 3339 shape
digits4-digits2-digits2 T digits2:digits2:digits2 [.digits] (Z or +-hh:mm)
and rejects everything else.  Component range checks are omitted; no
claim in this development depends on them.  A successfully parsed time is
represented by its input text. -/
def rfc3339Parse (s : String) : Option GoTime := do
  let cs := s.toList
  let cs ← consumeDigits 4 cs
  let cs ← consumeChar '-' cs
  let cs ← consumeDigits 2 cs
  let cs ← consumeChar '-' cs
  let cs ← consumeDigits 2 cs
  let cs ← consumeChar 'T' cs
  let cs ← consumeDigits 2 cs
  let cs ← consumeChar ':' cs
  let cs ← consumeDigits 2 cs
  let cs ← consumeChar ':' cs
  let cs ← consumeDigits 2 cs
  let cs ← consumeFrac cs
  let cs ← consumeZone cs
  if cs.isEmpty then some s else none

/-- Models t.Format(time.RFC3339) on a parsed time: returns its textual
representation.  No claim proved here depends on format normalization. -/
def rfc3339Format (t : GoTime) : String := t

/-- Models the Go conversion uint32(v) applied to a float64 (modelled at
an integral value): exact for values in uint32 range; the out-of-range
behaviour, unspecified in Go, is modelled as wraparound. -/
def goUInt32OfFloat (v : Int) : Nat := (v % (4294967296 : Int)).toNat

/-! ## Data model

The SDK types (scaleway-sdk-go api/domain/v2beta1) are external
collaborators; they are embedded with exactly the fields the excerpt
reads or writes.  Stringly-typed enums (ContactLegalForm,
ContactExtensionFRMode, ContactExtensionNLLegalForm, std.LanguageCode)
are plain strings, as in the SDK where each is a named string type. -/

/-- SDK sentinel domain.ContactExtensionFRModeModeUnknown.  The exact
string is immaterial to every claim proved here. -/
def ContactExtensionFRModeModeUnknown : String := "mode_unknown"

/-- SDK sentinel domain.ContactExtensionNLLegalFormLegalFormUnknown. -/
def ContactExtensionNLLegalFormLegalFormUnknown : String := "legal_form_unknown"

/-- SDK struct domain.ContactExtensionFRIndividualInfo. -/
structure ContactExtensionFRIndividualInfo where
  whoisOptIn : Bool
deriving Repr, DecidableEq

/-- SDK struct domain.ContactExtensionFRDunsInfo. -/
structure ContactExtensionFRDunsInfo where
  dunsID : String
  localID : String
deriving Repr, DecidableEq

/-- SDK struct domain.ContactExtensionFRAssociationInfo.  PublicationJo
has pointer type in the SDK, hence the Option. -/
structure ContactExtensionFRAssociationInfo where
  publicationJo : Option GoTime
  publicationJoPage : Nat
deriving Repr, DecidableEq

/-- SDK struct domain.ContactExtensionFRTrademarkInfo. -/
structure ContactExtensionFRTrademarkInfo where
  trademarkInpi : String
deriving Repr, DecidableEq

/-- SDK struct domain.ContactExtensionFRCodeAuthAfnicInfo. -/
structure ContactExtensionFRCodeAuthAfnicInfo where
  codeAuthAfnic : String
deriving Repr, DecidableEq

/-- SDK struct domain.ContactExtensionFR; the nested info blocks have
pointer type in the SDK, hence the Options. -/
structure ContactExtensionFR where
  mode : String
  individualInfo : Option ContactExtensionFRIndividualInfo
  dunsInfo : Option ContactExtensionFRDunsInfo
  associationInfo : Option ContactExtensionFRAssociationInfo
  trademarkInfo : Option ContactExtensionFRTrademarkInfo
  codeAuthAfnicInfo : Option ContactExtensionFRCodeAuthAfnicInfo
deriving Repr, DecidableEq

/-- SDK struct domain.ContactExtensionEU. -/
structure ContactExtensionEU where
  europeanCitizenship : String
deriving Repr, DecidableEq

/-- SDK struct domain.ContactExtensionNL. -/
structure ContactExtensionNL where
  legalForm : String
  legalFormRegistrationNumber : String
deriving Repr, DecidableEq

/-- SDK struct domain.Contact, restricted to the fields the excerpt
touches.  Optional scalar fields are plain strings in the SDK (zero
value empty string); the extensions are pointers, hence Options. -/
structure Contact where
  phoneNumber : String
  legalForm : String
  firstname : String
  lastname : String
  email : String
  addressLine1 : String
  zip : String
  city : String
  country : String
  companyName : String
  emailAlt : String
  faxNumber : String
  addressLine2 : String
  vatIDentificationCode : String
  companyIDentificationCode : String
  lang : String
  resale : Bool
  state : String
  whoisOptIn : Bool
  extensionFr : Option ContactExtensionFR
  extensionEu : Option ContactExtensionEU
  extensionNl : Option ContactExtensionNL
deriving Repr, DecidableEq

/-- SDK struct domain.NewContact, restricted to the fields ExpandNewContact
sets.  Optional scalar fields are string pointers in the SDK
(scw.StringPtr), hence Options: present-but-empty and absent are
distinct. -/
structure NewContact where
  phoneNumber : String
  legalForm : String
  firstname : String
  lastname : String
  email : String
  addressLine1 : String
  zip : String
  city : String
  country : String
  resale : Bool
  whoisOptIn : Bool
  companyName : Option String
  emailAlt : Option String
  faxNumber : Option String
  addressLine2 : Option String
  vatIDentificationCode : Option String
  companyIDentificationCode : Option String
  state : Option String
  extensionFr : Option ContactExtensionFR
  extensionEu : Option ContactExtensionEU
  extensionNl : Option ContactExtensionNL
deriving Repr, DecidableEq

/-! ## Expanders (helpers.go) -/

/-- Source parseEnum (helpers.go): reads a key as a string, returning the
default sentinel when the key is absent or not a string.  The generic
T with underlying type string is modelled as String. -/
def parseEnum (data : FlatMap) (key : String) (defaultValue : String) : String :=
  match lookup data key with
  | some (Value.str value) => value
  | _ => defaultValue

/-- The ContactExtensionFRIndividualInfo case of source mapToStruct
(helpers.go): each field is set only from an ok-form assertion. -/
def mapToStructIndividualInfo (data : FlatMap) (t : ContactExtensionFRIndividualInfo) :
    ContactExtensionFRIndividualInfo :=
  match lookup data "whois_opt_in" with
  | some (Value.bool v) => { t with whoisOptIn := v }
  | _ => t

/-- The ContactExtensionFRDunsInfo case of source mapToStruct. -/
def mapToStructDunsInfo (data : FlatMap) (t : ContactExtensionFRDunsInfo) :
    ContactExtensionFRDunsInfo :=
  let t1 :=
    match lookup data "duns_id" with
    | some (Value.str v) => { t with dunsID := v }
    | _ => t
  match lookup data "local_id" with
  | some (Value.str v) => { t1 with localID := v }
  | _ => t1

/-- The ContactExtensionFRAssociationInfo case of source mapToStruct:
publication_jo is accepted only as a string that parses as RFC 3339
(silently dropped otherwise), publication_jo_page only as a float64
(truncated to uint32). -/
def mapToStructAssociationInfo (data : FlatMap) (t : ContactExtensionFRAssociationInfo) :
    ContactExtensionFRAssociationInfo :=
  let t1 :=
    match lookup data "publication_jo" with
    | some (Value.str v) =>
      match rfc3339Parse v with
      | some parsedTime => { t with publicationJo := some parsedTime }
      | none => t
    | _ => t
  match lookup data "publication_jo_page" with
  | some (Value.float v) => { t1 with publicationJoPage := goUInt32OfFloat v }
  | _ => t1

/-- The ContactExtensionFRTrademarkInfo case of source mapToStruct. -/
def mapToStructTrademarkInfo (data : FlatMap) (t : ContactExtensionFRTrademarkInfo) :
    ContactExtensionFRTrademarkInfo :=
  match lookup data "trademark_inpi" with
  | some (Value.str v) => { t with trademarkInpi := v }
  | _ => t

/-- The ContactExtensionFRCodeAuthAfnicInfo case of source mapToStruct. -/
def mapToStructCodeAuthAfnicInfo (data : FlatMap) (t : ContactExtensionFRCodeAuthAfnicInfo) :
    ContactExtensionFRCodeAuthAfnicInfo :=
  match lookup data "code_auth_afnic" with
  | some (Value.str v) => { t with codeAuthAfnic := v }
  | _ => t

/-- Source parseStruct (helpers.go), with the type parameter supplied as
an explicit zero value and the matching mapToStruct case: when the key
holds a map (ok-form assertion, which also accepts a stored nil map,
whose lookups all miss), a zero struct is filled in and returned;
otherwise nil. -/
def parseStruct {T : Type} (zero : T) (mapToStructT : FlatMap → T → T)
    (data : FlatMap) (key : String) : Option T :=
  match asGoMap (lookup data key) with
  | some nested => some (mapToStructT (nested.getD []) zero)
  | none => none

/-- Result of source expandContactExtension, which returns interface\x7b\x7d:
one of the three extension structs, with the nil interface case as the
surrounding Option. -/
inductive ExtResult where
  | fr (e : ContactExtensionFR)
  | eu (e : ContactExtensionEU)
  | nl (e : ContactExtensionNL)
deriving Repr, DecidableEq

/-- The Go zero value of ContactExtensionFRIndividualInfo (var result T
in parseStruct). -/
def zeroIndividualInfo : ContactExtensionFRIndividualInfo := { whoisOptIn := false }

/-- The Go zero value of ContactExtensionFRDunsInfo. -/
def zeroDunsInfo : ContactExtensionFRDunsInfo := { dunsID := "", localID := "" }

/-- The Go zero value of ContactExtensionFRAssociationInfo. -/
def zeroAssociationInfo : ContactExtensionFRAssociationInfo :=
  { publicationJo := none, publicationJoPage := 0 }

/-- The Go zero value of ContactExtensionFRTrademarkInfo. -/
def zeroTrademarkInfo : ContactExtensionFRTrademarkInfo := { trademarkInpi := "" }

/-- The Go zero value of ContactExtensionFRCodeAuthAfnicInfo. -/
def zeroCodeAuthAfnicInfo : ContactExtensionFRCodeAuthAfnicInfo := { codeAuthAfnic := "" }

/-- Source expandContactExtension (helpers.go): nil for a nil or empty
map, otherwise builds the extension selected by the type tag; each FR
sub-field is independently optional, enums defaulting to the unknown
sentinel. -/
def expandContactExtension (extensionMap : Option FlatMap) (extensionType : String) :
    Option ExtResult :=
  match extensionMap with
  | none => none
  | some m =>
    if m.length = 0 then none
    else if extensionType = "fr" then
      some (ExtResult.fr {
        mode := parseEnum m "mode" ContactExtensionFRModeModeUnknown
        individualInfo := parseStruct zeroIndividualInfo mapToStructIndividualInfo m "individual_info"
        dunsInfo := parseStruct zeroDunsInfo mapToStructDunsInfo m "duns_info"
        associationInfo := parseStruct zeroAssociationInfo mapToStructAssociationInfo m "association_info"
        trademarkInfo := parseStruct zeroTrademarkInfo mapToStructTrademarkInfo m "trademark_info"
        codeAuthAfnicInfo := parseStruct zeroCodeAuthAfnicInfo mapToStructCodeAuthAfnicInfo m "code_auth_afnic_info" })
    else if extensionType = "nl" then
      some (ExtResult.nl {
        legalForm := parseEnum m "legal_form" ContactExtensionNLLegalFormLegalFormUnknown
        legalFormRegistrationNumber := (lookupOptString m "legal_form_registration_number").getD "" })
    else if extensionType = "eu" then
      some (ExtResult.eu {
        europeanCitizenship := (lookupOptString m "european_citizenship").getD "" })
    else none

/-- Models the extension_fr block of source ExpandNewContact (helpers.go,
lines 208-210): the ok-form map assertion followed by the assertion
expandContactExtension(extFr, "fr").(*domain.ContactExtensionFR), which
panics when expandContactExtension returns the nil interface (as it does
for a present-but-empty map). -/
def goAssertExtFR (v : Option Value) : Except String (Option ContactExtensionFR) :=
  match asGoMap v with
  | some extFr =>
    match expandContactExtension extFr "fr" with
    | some (ExtResult.fr e) => Except.ok (some e)
    | _ => Except.error "interface conversion: nil extension result"
  | none => Except.ok none

/-- Models the extension_eu block of source ExpandNewContact (lines
211-213); see goAssertExtFR. -/
def goAssertExtEU (v : Option Value) : Except String (Option ContactExtensionEU) :=
  match asGoMap v with
  | some extEu =>
    match expandContactExtension extEu "eu" with
    | some (ExtResult.eu e) => Except.ok (some e)
    | _ => Except.error "interface conversion: nil extension result"
  | none => Except.ok none

/-- Models the extension_nl block of source ExpandNewContact (lines
214-216); see goAssertExtFR. -/
def goAssertExtNL (v : Option Value) : Except String (Option ContactExtensionNL) :=
  match asGoMap v with
  | some extNl =>
    match expandContactExtension extNl "nl" with
    | some (ExtResult.nl e) => Except.ok (some e)
    | _ => Except.error "interface conversion: nil extension result"
  | none => Except.ok none

/-- Source ExpandNewContact (helpers.go): nil in, nil out; the nine
required fields are read with panicking string assertions; resale and
whois_opt_in default to false; the seven optional scalars are attached
whenever their key exists as a string, regardless of emptiness
(existence check, not non-empty check); the extension blocks use the
panicking interface conversion modelled by goAssertExtFR/EU/NL.  The
extension assertions are sequenced before the record is built: every
panic aborts the whole call, so the order of abort causes is
unobservable. -/
def ExpandNewContact (contactMap : Option FlatMap) : Except String (Option NewContact) :=
  match contactMap with
  | none => Except.ok none
  | some m => do
    let phoneNumber ← goAssertString (lookup m "phone_number")
    let legalForm ← goAssertString (lookup m "legal_form")
    let firstname ← goAssertString (lookup m "firstname")
    let lastname ← goAssertString (lookup m "lastname")
    let email ← goAssertString (lookup m "email")
    let addressLine1 ← goAssertString (lookup m "address_line_1")
    let zip ← goAssertString (lookup m "zip")
    let city ← goAssertString (lookup m "city")
    let country ← goAssertString (lookup m "country")
    let extensionFr ← goAssertExtFR (lookup m "extension_fr")
    let extensionEu ← goAssertExtEU (lookup m "extension_eu")
    let extensionNl ← goAssertExtNL (lookup m "extension_nl")
    Except.ok (some {
      phoneNumber := phoneNumber
      legalForm := legalForm
      firstname := firstname
      lastname := lastname
      email := email
      addressLine1 := addressLine1
      zip := zip
      city := city
      country := country
      resale := lookupBool m "resale"
      whoisOptIn := lookupBool m "whois_opt_in"
      companyName := lookupOptString m "company_name"
      emailAlt := lookupOptString m "email_alt"
      faxNumber := lookupOptString m "fax_number"
      addressLine2 := lookupOptString m "address_line_2"
      vatIDentificationCode := lookupOptString m "vat_identification_code"
      companyIDentificationCode := lookupOptString m "company_identification_code"
      state := lookupOptString m "state"
      extensionFr := extensionFr
      extensionEu := extensionEu
      extensionNl := extensionNl })

/-! ## Flatteners (helpers.go) -/

/-- Wraps a returned Go map value for storage in an interface\x7b\x7d map
entry: a nil map stays a (non-nil) interface holding a nil map. -/
def mapVal : Option FlatMap → Value
  | some entries => Value.vmap entries
  | none => Value.nilMap

/-- Source flattenContactExtensionFRIndividualInfo (helpers.go): nil in,
nil out. -/
def flattenContactExtensionFRIndividualInfo
    (info : Option ContactExtensionFRIndividualInfo) : Option FlatMap :=
  match info with
  | none => none
  | some info => some [("whois_opt_in", Value.bool info.whoisOptIn)]

/-- Source flattenContactExtensionFRDunsInfo (helpers.go). -/
def flattenContactExtensionFRDunsInfo
    (info : Option ContactExtensionFRDunsInfo) : Option FlatMap :=
  match info with
  | none => none
  | some info => some [
      ("duns_id", Value.str info.dunsID),
      ("local_id", Value.str info.localID)]

/-- Source flattenContactExtensionFRAssociationInfo (helpers.go, lines
352-360): a nil struct flattens to a nil map, but a non-nil struct calls
info.PublicationJo.Format(time.RFC3339) without a nil check although
PublicationJo has pointer type, a nil pointer dereference panic modelled
by the error case. -/
def flattenContactExtensionFRAssociationInfo
    (info : Option ContactExtensionFRAssociationInfo) : Except String (Option FlatMap) :=
  match info with
  | none => Except.ok none
  | some info =>
    match info.publicationJo with
    | none => Except.error "runtime error: invalid memory address or nil pointer dereference"
    | some t => Except.ok (some [
        ("publication_jo", Value.str (rfc3339Format t)),
        ("publication_jo_page", Value.uint32 info.publicationJoPage)])

/-- Source flattenContactExtensionFRTrademarkInfo (helpers.go). -/
def flattenContactExtensionFRTrademarkInfo
    (info : Option ContactExtensionFRTrademarkInfo) : Option FlatMap :=
  match info with
  | none => none
  | some info => some [("trademark_inpi", Value.str info.trademarkInpi)]

/-- Source flattenContactExtensionFRCodeAuthAfnicInfo (helpers.go). -/
def flattenContactExtensionFRCodeAuthAfnicInfo
    (info : Option ContactExtensionFRCodeAuthAfnicInfo) : Option FlatMap :=
  match info with
  | none => none
  | some info => some [("code_auth_afnic", Value.str info.codeAuthAfnic)]

/-- Source flattenContactExtensionFR (helpers.go, lines 318-331): nil in,
nil out; otherwise the five nested info keys are emitted
unconditionally, each holding the (possibly nil) map produced by its
nested flattener.  Propagates the possible panic of the association-info
flattener. -/
def flattenContactExtensionFR (ext : Option ContactExtensionFR) :
    Except String (Option FlatMap) :=
  match ext with
  | none => Except.ok none
  | some ext => do
    let assoc ← flattenContactExtensionFRAssociationInfo ext.associationInfo
    Except.ok (some [
      ("mode", Value.str ext.mode),
      ("individual_info", mapVal (flattenContactExtensionFRIndividualInfo ext.individualInfo)),
      ("duns_info", mapVal (flattenContactExtensionFRDunsInfo ext.dunsInfo)),
      ("association_info", mapVal assoc),
      ("trademark_info", mapVal (flattenContactExtensionFRTrademarkInfo ext.trademarkInfo)),
      ("code_auth_afnic_info", mapVal (flattenContactExtensionFRCodeAuthAfnicInfo ext.codeAuthAfnicInfo))])

/-- Source flattenContactExtensionEU (helpers.go). -/
def flattenContactExtensionEU (ext : Option ContactExtensionEU) : Option FlatMap :=
  match ext with
  | none => none
  | some ext => some [("european_citizenship", Value.str ext.europeanCitizenship)]

/-- Source flattenContactExtensionNL (helpers.go). -/
def flattenContactExtensionNL (ext : Option ContactExtensionNL) : Option FlatMap :=
  match ext with
  | none => none
  | some ext => some [
      ("legal_form", Value.str ext.legalForm),
      ("legal_form_registration_number", Value.str ext.legalFormRegistrationNumber)]

/-- Source flattenContact (helpers.go, lines 278-316): nil in, nil out;
otherwise the nineteen scalar keys are always emitted (enums rendered as
their string tags) and each extension key is added only when the
extension pointer is non-nil.  Propagates the possible panic of the FR
flattener. -/
def flattenContact (contact : Option Contact) : Except String (Option FlatMap) :=
  match contact with
  | none => Except.ok none
  | some contact => do
    let flattened : FlatMap := [
      ("phone_number", Value.str contact.phoneNumber),
      ("legal_form", Value.str contact.legalForm),
      ("firstname", Value.str contact.firstname),
      ("lastname", Value.str contact.lastname),
      ("email", Value.str contact.email),
      ("address_line_1", Value.str contact.addressLine1),
      ("zip", Value.str contact.zip),
      ("city", Value.str contact.city),
      ("country", Value.str contact.country),
      ("company_name", Value.str contact.companyName),
      ("email_alt", Value.str contact.emailAlt),
      ("fax_number", Value.str contact.faxNumber),
      ("address_line_2", Value.str contact.addressLine2),
      ("vat_identification_code", Value.str contact.vatIDentificationCode),
      ("company_identification_code", Value.str contact.companyIDentificationCode),
      ("lang", Value.str contact.lang),
      ("resale", Value.bool contact.resale),
      ("state", Value.str contact.state),
      ("whois_opt_in", Value.bool contact.whoisOptIn)]
    let flattened ←
      match contact.extensionFr with
      | some e => do
        let fr ← flattenContactExtensionFR (some e)
        pure (flattened ++ [("extension_fr", mapVal fr)])
      | none => pure flattened
    let flattened :=
      match contact.extensionEu with
      | some e => flattened ++ [("extension_eu", mapVal (flattenContactExtensionEU (some e)))]
      | none => flattened
    let flattened :=
      match contact.extensionNl with
      | some e => flattened ++ [("extension_nl", mapVal (flattenContactExtensionNL (some e)))]
      | none => flattened
    Except.ok (some flattened)

/-! ## Identity codec (helpers.go and order_domain.go) -/

/-- Models Go strings.Split with the single-character separator used by
the source: splitting an empty string yields one empty segment, and
every separator occurrence starts a new segment. -/
def goSplitList (sep : Char) : List Char → List (List Char)
  | [] => [[]]
  | c :: rest =>
    if c == sep then [] :: goSplitList sep rest
    else
      match goSplitList sep rest with
      | h :: t => (c :: h) :: t
      | [] => [[c]]

/-- Go strings.Split(s, sep) for a one-character separator, on Lean
strings. -/
def goSplit (s : String) (sep : Char) : List String :=
  (goSplitList sep s.toList).map (fun cs => String.mk cs)

/-- The error text of source extractDomainFromID, which names the
offending identifier.  (The Go text additionally quotes the expected
shape.) -/
def invalidIDMessage (id : String) : String :=
  "invalid ID format, expected projectID/domainName, got: " ++ id

/-- Source extractDomainFromID (helpers.go, lines 270-276): splits on /
and succeeds with the second segment only when exactly two segments
result. -/
def extractDomainFromID (id : String) : Except String String :=
  match goSplit id '/' with
  | [_, domainName] => Except.ok domainName
  | _ => Except.error (invalidIDMessage id)

/-- The identifier minted by source resourceOrderDomainCreate
(order_domain.go, line 404): d.SetId(resp.ProjectID + "/" + domainName). -/
def orderDomainID (projectID domainName : String) : String :=
  projectID ++ "/" ++ domainName

/-! ## Owner-contact validator (order_domain.go) -/

/-- The inputs the CustomizeDiff closure of ResourceOrderDomain reads
from the pending configuration revision: for each owner field, whether
it changed and its pending value. -/
structure ResourceDiffOwnerContact where
  ownerContactIDChanged : Bool
  ownerContactID : String
  ownerContactChanged : Bool
  ownerContact : FlatMap
deriving Repr

/-- The CustomizeDiff closure of source ResourceOrderDomain
(order_domain.go, lines 245-258): a pure validation returning the error,
if any (none models the nil error).  It performs no remote call. -/
def resourceOrderDomainCustomizeDiff (d : ResourceDiffOwnerContact) : Option String :=
  let hasOwnerContactID := d.ownerContactIDChanged && d.ownerContactID != ""
  let hasOwnerContact := d.ownerContactChanged && decide (0 < d.ownerContact.length)
  if !hasOwnerContactID && !hasOwnerContact then
    some "either owner_contact_id or owner_contact must be provided"
  else if hasOwnerContactID && hasOwnerContact then
    some "only one of owner_contact_id or owner_contact can be provided"
  else none

/-! ## DNS record lookup (helpers.go) -/

/-- SDK struct domain.Record, restricted to the fields
getRecordFromTypeAndData reads, plus the name, which distinguishes
records.  The record type enum is its string tag. -/
structure Record where
  name : String
  recordType : String
  data : String
deriving Repr, DecidableEq

/-- Models Go strings.ToLower. -/
def goToLower (s : String) : String := String.mk (s.toList.map Char.toLower)

/-- Models Go strings.HasPrefix. -/
def goHasPrefix (s pre : String) : Bool := pre.toList.isPrefixOf s.toList

/-- The loop of source getRecordFromTypeAndData (helpers.go, lines 26-36)
with its currentRecord accumulator, kept faithful to the source
including the break statement that leaves the loop as soon as a record
matched: returning ok terminates the loop (break or exhaustion), error
models the early duplicate return.  flattenDomainData is repository code
outside the excerpt and is taken as a parameter. -/
def getRecordLoop (flattenDomainData : String → String → String)
    (dnsType data : String) :
    List Record → Option Record → Except String (Option Record)
  | [], currentRecord => Except.ok currentRecord
  | r :: rest, currentRecord =>
    let flattedData := flattenDomainData (goToLower r.data) r.recordType
    let flattenCurrentData := flattenDomainData (goToLower data) r.recordType
    if goHasPrefix flattedData flattenCurrentData && r.recordType == dnsType then
      match currentRecord with
      | some _ => Except.error "multiple records found with same type and data"
      | none => Except.ok (some r)
    else getRecordLoop flattenDomainData dnsType data rest currentRecord

/-- Source getRecordFromTypeAndData (helpers.go, lines 24-43). -/
def getRecordFromTypeAndData (flattenDomainData : String → String → String)
    (dnsType data : String) (records : List Record) : Except String Record :=
  match getRecordLoop flattenDomainData dnsType data records none with
  | Except.error e => Except.error e
  | Except.ok none =>
    Except.error ("record with type " ++ dnsType ++ " and data " ++ data ++ " not found")
  | Except.ok (some r) => Except.ok r

/-! ## Helper lemmas -/

theorem exceptBind_eq_ok {ε α β : Type} (e : Except ε α) (f : α → Except ε β) (b : β) :
    (e >>= f) = Except.ok b ↔ ∃ a, e = Except.ok a ∧ f a = Except.ok b := by
  cases e <;> simp [Bind.bind, Except.bind]

theorem goSplitList_no_sep (sep : Char) (l : List Char) (h : sep ∉ l) :
    goSplitList sep l = [l] := by
  induction l with
  | nil => rfl
  | cons c rest ih =>
    simp only [List.mem_cons, not_or] at h
    have hc : (c == sep) = false := by
      simp only [beq_eq_false_iff_ne]
      exact fun e => h.1 e.symm
    simp [goSplitList, hc, ih h.2]

theorem goSplitList_sep_append (sep : Char) (l1 l2 : List Char) (h1 : sep ∉ l1)
    (h2 : sep ∉ l2) : goSplitList sep (l1 ++ sep :: l2) = [l1, l2] := by
  induction l1 with
  | nil => simp [goSplitList, goSplitList_no_sep sep l2 h2]
  | cons c rest ih =>
    simp only [List.mem_cons, not_or] at h1
    have hc : (c == sep) = false := by
      simp only [beq_eq_false_iff_ne]
      exact fun e => h1.1 e.symm
    simp [goSplitList, hc, ih h1.2]

/-! ## Claim theorems -/

/-- C7.  Identity codec round-trip: for all projectID and domainName
strings not containing a slash, decoding the identifier minted as
projectID ++ "/" ++ domainName succeeds and returns domainName. -/
theorem domain_id_round_trip (projectID domainName : String)
    (h1 : '/' ∉ projectID.toList) (h2 : '/' ∉ domainName.toList) :
    extractDomainFromID (orderDomainID projectID domainName) = Except.ok domainName := by
  have htl : (orderDomainID projectID domainName).toList =
      projectID.toList ++ '/' :: domainName.toList := by
    simp [orderDomainID, String.toList]
  unfold extractDomainFromID goSplit
  rw [htl, goSplitList_sep_append '/' projectID.toList domainName.toList h1 h2]
  rfl

theorem domain_id_round_trip_witness :
    extractDomainFromID (orderDomainID "proj-1" "example.com") = Except.ok "example.com" :=
  domain_id_round_trip "proj-1" "example.com" (by decide) (by decide)

/-- C8.  Identity codec rejection: decoding returns the second segment
exactly when splitting on the slash yields two segments, and otherwise
returns the invalid-identifier error naming the offending string; in
particular the three listed identifiers all fail. -/
theorem extract_domain_rejection :
    (∀ id p d, goSplit id '/' = [p, d] → extractDomainFromID id = Except.ok d)
    ∧ (∀ id : String, (goSplit id '/').length ≠ 2 →
        extractDomainFromID id = Except.error (invalidIDMessage id))
    ∧ extractDomainFromID "onlyonepart" = Except.error (invalidIDMessage "onlyonepart")
    ∧ extractDomainFromID "a/b/c" = Except.error (invalidIDMessage "a/b/c")
    ∧ extractDomainFromID "" = Except.error (invalidIDMessage "") := by
  refine ⟨?_, ?_, rfl, rfl, rfl⟩
  · intro id p d h
    simp [extractDomainFromID, h]
  · intro id h
    rcases hs : goSplit id '/' with _ | ⟨a, _ | ⟨b, _ | ⟨c, t⟩⟩⟩
    · simp [extractDomainFromID, hs]
    · simp [extractDomainFromID, hs]
    · rw [hs] at h
      simp at h
    · simp [extractDomainFromID, hs]

theorem extract_domain_rejection_witness :
    extractDomainFromID "proj-1/example.com" = Except.ok "example.com" :=
  extract_domain_rejection.1 "proj-1/example.com" "proj-1" "example.com" rfl

/-- C6.  Owner-contact precedence validation: on a revision in which both
owner fields changed, the CustomizeDiff validator accepts (returns the
nil error) exactly when a non-empty owner_contact_id XOR a non-empty
owner_contact map is supplied; both-present and both-absent yield an
error.  The validator is a pure function of the revision, so no remote
call is involved in any case. -/
theorem owner_contact_xor_validation (d : ResourceDiffOwnerContact)
    (h1 : d.ownerContactIDChanged = true) (h2 : d.ownerContactChanged = true) :
    resourceOrderDomainCustomizeDiff d = none ↔
      Xor' (d.ownerContactID ≠ "") (0 < d.ownerContact.length) := by
  simp only [resourceOrderDomainCustomizeDiff, h1, h2, Bool.true_and]
  by_cases hid : d.ownerContactID = "" <;>
    by_cases hc : 0 < d.ownerContact.length <;>
      simp [hid, hc, Xor']

theorem owner_contact_xor_validation_witness :
    resourceOrderDomainCustomizeDiff
      { ownerContactIDChanged := true, ownerContactID := "ID1",
        ownerContactChanged := true,
        ownerContact := [("firstname", Value.str "A")] } ≠ none := by
  intro hnone
  have h := (owner_contact_xor_validation
    { ownerContactIDChanged := true, ownerContactID := "ID1",
      ownerContactChanged := true,
      ownerContact := [("firstname", Value.str "A")] } rfl rfl).mp hnone
  exact (by decide :
    ¬ Xor' (("ID1" : String) ≠ "") (0 < ([("firstname", Value.str "A")] : FlatMap).length)) h

/-- Sample records for the duplicate-match scenario: both match a
type A query with data a under a pass-through data normalization. -/
def dupRecordOne : Record := { name := "r1", recordType := "A", data := "ab" }

/-- Second matching record, distinct from the first. -/
def dupRecordTwo : Record := { name := "r2", recordType := "A", data := "ac" }

/-- C10 (code evaluated at the failing input).  With two distinct records
both matching the type+data query, getRecordFromTypeAndData returns the
first match instead of the multiple-records error: the break after the
first assignment of currentRecord makes the duplicate branch
unreachable.  The second conjunct checks that the second record does
match the query condition of the loop; the third shows the not-found
error of the empty candidate list. -/
theorem get_record_returns_first_match_no_duplicate_error :
    getRecordFromTypeAndData (fun s _ => s) "A" "a" [dupRecordOne, dupRecordTwo] =
      Except.ok dupRecordOne
    ∧ dupRecordOne ≠ dupRecordTwo
    ∧ (goHasPrefix (goToLower dupRecordTwo.data) (goToLower "a")
        && (dupRecordTwo.recordType == "A")) = true
    ∧ getRecordFromTypeAndData (fun s _ => s) "A" "a" [] =
        Except.error "record with type A and data a not found" := by
  refine ⟨rfl, by decide, rfl, rfl⟩

/-- A well-typed flat contact map carrying the nine required fields plus
a present-but-empty extension_fr nested map. -/
def emptyExtensionContactMap : FlatMap := [
  ("phone_number", Value.str "+33612345678"),
  ("legal_form", Value.str "individual"),
  ("firstname", Value.str "Jane"),
  ("lastname", Value.str "Doe"),
  ("email", Value.str "jane@example.com"),
  ("address_line_1", Value.str "1 rue de Paris"),
  ("zip", Value.str "75001"),
  ("city", Value.str "Paris"),
  ("country", Value.str "FR"),
  ("extension_fr", Value.vmap [])]

/-- The same map with the extension_fr key malformed (a string instead
of a nested map). -/
def malformedExtensionContactMap : FlatMap := [
  ("phone_number", Value.str "+33612345678"),
  ("legal_form", Value.str "individual"),
  ("firstname", Value.str "Jane"),
  ("lastname", Value.str "Doe"),
  ("email", Value.str "jane@example.com"),
  ("address_line_1", Value.str "1 rue de Paris"),
  ("zip", Value.str "75001"),
  ("city", Value.str "Paris"),
  ("country", Value.str "FR"),
  ("extension_fr", Value.str "oops")]

/-- C2 (code evaluated at the failing input).  ExpandNewContact is not
total on well-typed maps: a present-but-empty extension_fr map makes
expandContactExtension return the nil interface, and the unguarded
conversion to *ContactExtensionFR panics (first conjunct).  A malformed
extension value, by contrast, fails the ok-form map assertion and is
treated as absent (second conjunct). -/
theorem expand_new_contact_empty_extension_panics :
    ExpandNewContact (some emptyExtensionContactMap) =
      Except.error "interface conversion: nil extension result"
    ∧ ExpandNewContact (some malformedExtensionContactMap) = Except.ok (some {
        phoneNumber := "+33612345678", legalForm := "individual",
        firstname := "Jane", lastname := "Doe", email := "jane@example.com",
        addressLine1 := "1 rue de Paris", zip := "75001", city := "Paris",
        country := "FR", resale := false, whoisOptIn := false,
        companyName := none, emailAlt := none, faxNumber := none,
        addressLine2 := none, vatIDentificationCode := none,
        companyIDentificationCode := none, state := none,
        extensionFr := none, extensionEu := none, extensionNl := none }) :=
  ⟨rfl, rfl⟩

/-- A DomainRecord contact carrying a French association-info block whose
publication date is absent (nil pointer), as mapToStruct itself produces
for a missing or unparsable publication_jo. -/
def nilPublicationContact : Contact := {
  phoneNumber := "+33612345678", legalForm := "individual",
  firstname := "Jane", lastname := "Doe", email := "jane@example.com",
  addressLine1 := "1 rue de Paris", zip := "75001", city := "Paris",
  country := "FR", companyName := "", emailAlt := "", faxNumber := "",
  addressLine2 := "", vatIDentificationCode := "",
  companyIDentificationCode := "", lang := "fr", resale := false,
  state := "", whoisOptIn := false,
  extensionFr := some {
    mode := ContactExtensionFRModeModeUnknown,
    individualInfo := none, dunsInfo := none,
    associationInfo := some { publicationJo := none, publicationJoPage := 1 },
    trademarkInfo := none, codeAuthAfnicInfo := none },
  extensionEu := none, extensionNl := none }

/-- C3 (code evaluated at the failing input).  Flatten is not total: a
contact whose French association-info block has a nil publication date
makes flattenContactExtensionFRAssociationInfo dereference the nil
PublicationJo pointer in the unconditional Format call, a panic that
propagates through flattenContact. -/
theorem flatten_nil_publication_jo_panics :
    flattenContact (some nilPublicationContact) =
      Except.error "runtime error: invalid memory address or nil pointer dereference"
    ∧ flattenContactExtensionFRAssociationInfo
        (some { publicationJo := none, publicationJoPage := 1 }) =
      Except.error "runtime error: invalid memory address or nil pointer dereference" :=
  ⟨rfl, rfl⟩

/-- Existence-check semantics of one optional scalar: the expanded field
carries exactly the string present in the map under the key (even the
empty string) and is omitted exactly when the key is absent. -/
def existenceSemantics (m : FlatMap) (key : String) (field : Option String) : Prop :=
  (∀ v, lookup m key = some (Value.str v) → field = some v)
  ∧ (lookup m key = none → field = none)

/-- C5.  Optional-field existence semantics of New-Contact expansion: for
every flat map on which ExpandNewContact succeeds, each of the seven
optional scalar fields is forwarded whenever its key is present as a
string, regardless of emptiness, and omitted (nil pointer) when the key
is absent. -/
theorem expand_new_contact_optional_existence (m : FlatMap) (nc : NewContact)
    (h : ExpandNewContact (some m) = Except.ok (some nc)) :
    existenceSemantics m "fax_number" nc.faxNumber
    ∧ existenceSemantics m "company_name" nc.companyName
    ∧ existenceSemantics m "email_alt" nc.emailAlt
    ∧ existenceSemantics m "address_line_2" nc.addressLine2
    ∧ existenceSemantics m "vat_identification_code" nc.vatIDentificationCode
    ∧ existenceSemantics m "company_identification_code" nc.companyIDentificationCode
    ∧ existenceSemantics m "state" nc.state := by
  simp only [ExpandNewContact, exceptBind_eq_ok] at h
  obtain ⟨pn, hpn, lf, hlf, fn, hfn, ln2, hln, em2, hem, a1, ha1, z, hz, ci, hci,
    co, hco, fr, hfr, eu, heu, nl, hnl, hfinal⟩ := h
  simp only [Except.ok.injEq, Option.some.injEq] at hfinal
  subst hfinal
  refine ⟨⟨?_, ?_⟩, ⟨?_, ?_⟩, ⟨?_, ?_⟩, ⟨?_, ?_⟩, ⟨?_, ?_⟩, ⟨?_, ?_⟩, ⟨?_, ?_⟩⟩ <;>
    first
    | (intro v hv; simp [lookupOptString, hv])
    | (intro hv; simp [lookupOptString, hv])

/-- A flat map with fax_number present as the explicit empty string and
state entirely absent. -/
def explicitEmptyFaxMap : FlatMap := [
  ("phone_number", Value.str "+33612345678"),
  ("legal_form", Value.str "individual"),
  ("firstname", Value.str "Jane"),
  ("lastname", Value.str "Doe"),
  ("email", Value.str "jane@example.com"),
  ("address_line_1", Value.str "1 rue de Paris"),
  ("zip", Value.str "75001"),
  ("city", Value.str "Paris"),
  ("country", Value.str "FR"),
  ("fax_number", Value.str "")]

/-- The result of expanding explicitEmptyFaxMap. -/
def explicitEmptyFaxNewContact : NewContact := {
  phoneNumber := "+33612345678", legalForm := "individual",
  firstname := "Jane", lastname := "Doe", email := "jane@example.com",
  addressLine1 := "1 rue de Paris", zip := "75001", city := "Paris",
  country := "FR", resale := false, whoisOptIn := false,
  companyName := none, emailAlt := none, faxNumber := some "",
  addressLine2 := none, vatIDentificationCode := none,
  companyIDentificationCode := none, state := none,
  extensionFr := none, extensionEu := none, extensionNl := none }

theorem expand_new_contact_optional_existence_witness :
    explicitEmptyFaxNewContact.faxNumber = some ""
    ∧ explicitEmptyFaxNewContact.state = none :=
  ⟨(expand_new_contact_optional_existence explicitEmptyFaxMap
      explicitEmptyFaxNewContact rfl).1.1 "" rfl,
   (expand_new_contact_optional_existence explicitEmptyFaxMap
      explicitEmptyFaxNewContact rfl).2.2.2.2.2.2.2 rfl⟩

theorem lookup_eraseKey_self (m : FlatMap) (key : String) :
    lookup (eraseKey m key) key = none := by
  induction m with
  | nil => rfl
  | cons p rest ih =>
    obtain ⟨k, v⟩ := p
    by_cases hk : k = key
    · subst hk
      simpa [eraseKey, List.filter_cons] using ih
    · have h1 : (k != key) = true := by simpa [bne_iff_ne] using hk
      have h2 : (k == key) = false := by simpa [beq_eq_false_iff_ne] using hk
      simpa [eraseKey, List.filter_cons, h1, lookup, h2] using ih

theorem lookup_eraseKey_ne (m : FlatMap) (key other : String) (h : other ≠ key) :
    lookup (eraseKey m key) other = lookup m other := by
  induction m with
  | nil => rfl
  | cons p rest ih =>
    obtain ⟨k, v⟩ := p
    by_cases hk : k = key
    · subst hk
      have h2 : (k == other) = false := by
        simp only [beq_eq_false_iff_ne]
        exact fun e => h e.symm
      simpa [eraseKey, List.filter_cons, lookup, h2] using ih
    · have h1 : (k != key) = true := by simpa [bne_iff_ne] using hk
      by_cases hko : k = other
      · subst hko
        simp [eraseKey, List.filter_cons, h1, lookup]
      · have h2 : (k == other) = false := by simpa [beq_eq_false_iff_ne] using hko
        simpa [eraseKey, List.filter_cons, h1, lookup, h2] using ih

/-- C9.  Malformed timestamp tolerance of the association-info expansion:
when publication_jo is present but not a valid RFC 3339 timestamp, the
publication-date field stays unset and the result is identical to the
one for a map without the key at all (no other field affected, no
error possible: the functions are total); through parseStruct the nested
map still expands; and the page number is taken (truncated to uint32)
only from a float64 value, any other dynamic type leaving the zero. -/
theorem association_info_malformed_timestamp_tolerance (am : FlatMap) (s : String)
    (hjo : lookup am "publication_jo" = some (Value.str s))
    (hbad : rfc3339Parse s = none) :
    (mapToStructAssociationInfo am zeroAssociationInfo).publicationJo = none
    ∧ mapToStructAssociationInfo am zeroAssociationInfo =
        mapToStructAssociationInfo (eraseKey am "publication_jo") zeroAssociationInfo
    ∧ (∀ em, lookup em "association_info" = some (Value.vmap am) →
        parseStruct zeroAssociationInfo mapToStructAssociationInfo em "association_info" =
          some (mapToStructAssociationInfo am zeroAssociationInfo))
    ∧ (∀ v, lookup am "publication_jo_page" = some (Value.float v) →
        (mapToStructAssociationInfo am zeroAssociationInfo).publicationJoPage =
          goUInt32OfFloat v)
    ∧ (∀ w, lookup am "publication_jo_page" = some w → (∀ v, w ≠ Value.float v) →
        (mapToStructAssociationInfo am zeroAssociationInfo).publicationJoPage = 0) := by
  have herase : lookup (eraseKey am "publication_jo") "publication_jo" = none :=
    lookup_eraseKey_self am "publication_jo"
  have hpage : lookup (eraseKey am "publication_jo") "publication_jo_page" =
      lookup am "publication_jo_page" :=
    lookup_eraseKey_ne am "publication_jo" "publication_jo_page" (by decide)
  refine ⟨?_, ?_, ?_, ?_, ?_⟩
  · rcases hp : lookup am "publication_jo_page" with _ | w
    · simp [mapToStructAssociationInfo, hjo, hbad, hp, zeroAssociationInfo]
    · cases w <;> simp [mapToStructAssociationInfo, hjo, hbad, hp, zeroAssociationInfo]
  · simp only [mapToStructAssociationInfo, hjo, hbad, herase, hpage]
  · intro em hem
    simp [parseStruct, asGoMap, hem]
  · intro v hv
    simp [mapToStructAssociationInfo, hjo, hbad, hv]
  · intro w hw hnf
    cases w with
    | float v => exact absurd rfl (hnf v)
    | str s2 => simp [mapToStructAssociationInfo, hjo, hbad, hw, zeroAssociationInfo]
    | bool b => simp [mapToStructAssociationInfo, hjo, hbad, hw, zeroAssociationInfo]
    | uint32 n => simp [mapToStructAssociationInfo, hjo, hbad, hw, zeroAssociationInfo]
    | vmap entries => simp [mapToStructAssociationInfo, hjo, hbad, hw, zeroAssociationInfo]
    | nilMap => simp [mapToStructAssociationInfo, hjo, hbad, hw, zeroAssociationInfo]

/-- An association-info map with an unparsable publication date and a
numeric page. -/
def malformedJoMap : FlatMap :=
  [("publication_jo", Value.str "not-a-date"), ("publication_jo_page", Value.float 42)]

theorem association_info_malformed_timestamp_tolerance_witness :
    (mapToStructAssociationInfo malformedJoMap zeroAssociationInfo).publicationJo = none
    ∧ (mapToStructAssociationInfo malformedJoMap zeroAssociationInfo).publicationJoPage =
        goUInt32OfFloat 42 :=
  ⟨(association_info_malformed_timestamp_tolerance malformedJoMap "not-a-date" rfl rfl).1,
   (association_info_malformed_timestamp_tolerance malformedJoMap "not-a-date" rfl rfl).2.2.2.1
     42 rfl⟩

theorem flattenContactExtensionFR_info_keys (ext : ContactExtensionFR) (m : FlatMap)
    (h : flattenContactExtensionFR (some ext) = Except.ok (some m)) :
    lookup m "individual_info" =
      some (mapVal (flattenContactExtensionFRIndividualInfo ext.individualInfo))
    ∧ lookup m "duns_info" = some (mapVal (flattenContactExtensionFRDunsInfo ext.dunsInfo))
    ∧ (∃ am, flattenContactExtensionFRAssociationInfo ext.associationInfo = Except.ok am
        ∧ lookup m "association_info" = some (mapVal am))
    ∧ lookup m "trademark_info" =
        some (mapVal (flattenContactExtensionFRTrademarkInfo ext.trademarkInfo))
    ∧ lookup m "code_auth_afnic_info" =
        some (mapVal (flattenContactExtensionFRCodeAuthAfnicInfo ext.codeAuthAfnicInfo)) := by
  obtain ⟨mo, ii, di, ai, ti, ca⟩ := ext
  rcases hai : flattenContactExtensionFRAssociationInfo ai with e | am
  · simp [flattenContactExtensionFR, hai, Bind.bind, Except.bind] at h
  · simp only [flattenContactExtensionFR, hai, Bind.bind, Except.bind,
      Except.ok.injEq, Option.some.injEq] at h
    subst h
    exact ⟨rfl, rfl, ⟨am, rfl, rfl⟩, rfl, rfl⟩

theorem flattenContact_extension_keys (c : Contact) (m : FlatMap)
    (h : flattenContact (some c) = Except.ok (some m)) :
    ((∃ v, lookup m "extension_fr" = some v) ↔ c.extensionFr ≠ none)
    ∧ ((∃ v, lookup m "extension_eu" = some v) ↔ c.extensionEu ≠ none)
    ∧ ((∃ v, lookup m "extension_nl" = some v) ↔ c.extensionNl ≠ none) := by
  obtain ⟨pn, lf, fn, ln2, em2, a1, z, ci, co, cn, ea, fx, a2, vat, cid, lg, rs, st, wo,
    efr, eeu, enl⟩ := c
  rcases efr with _ | e1 <;> rcases eeu with _ | e2 <;> rcases enl with _ | e3
  case none.none.none =>
    simp only [flattenContact, Bind.bind, Except.bind, pure, Except.pure,
      Except.ok.injEq, Option.some.injEq] at h
    subst h
    simp [lookup]
  case none.none.some =>
    simp only [flattenContact, Bind.bind, Except.bind, pure, Except.pure,
      Except.ok.injEq, Option.some.injEq] at h
    subst h
    simp [lookup]
  case none.some.none =>
    simp only [flattenContact, Bind.bind, Except.bind, pure, Except.pure,
      Except.ok.injEq, Option.some.injEq] at h
    subst h
    simp [lookup]
  case none.some.some =>
    simp only [flattenContact, Bind.bind, Except.bind, pure, Except.pure,
      Except.ok.injEq, Option.some.injEq] at h
    subst h
    simp [lookup]
  all_goals
    rcases hfr : flattenContactExtensionFR (some e1) with e | fr
  all_goals
    simp only [flattenContact, hfr, Bind.bind, Except.bind, pure, Except.pure,
      Except.ok.injEq, Option.some.injEq] at h
  all_goals
    first
    | exact Except.noConfusion h
    | (subst h; simp [lookup])

/-- The FR extension with every nested info block nil. -/
def allNilInfoExtensionFR : ContactExtensionFR := {
  mode := ContactExtensionFRModeModeUnknown,
  individualInfo := none, dunsInfo := none, associationInfo := none,
  trademarkInfo := none, codeAuthAfnicInfo := none }

/-- The flat map the FR flattener produces for allNilInfoExtensionFR. -/
def allNilInfoExtensionFRFlat : FlatMap := [
  ("mode", Value.str ContactExtensionFRModeModeUnknown),
  ("individual_info", Value.nilMap),
  ("duns_info", Value.nilMap),
  ("association_info", Value.nilMap),
  ("trademark_info", Value.nilMap),
  ("code_auth_afnic_info", Value.nilMap)]

/-- C4 counterexample: flattening an FR extension whose nested info
blocks are all nil does not omit their keys; each key is present,
holding a nil map value. -/
theorem flatten_extension_fr_emits_nil_info_keys :
    flattenContactExtensionFR (some allNilInfoExtensionFR) =
      Except.ok (some allNilInfoExtensionFRFlat)
    ∧ lookup allNilInfoExtensionFRFlat "individual_info" = some Value.nilMap
    ∧ lookup allNilInfoExtensionFRFlat "association_info" = some Value.nilMap :=
  ⟨rfl, rfl, rfl⟩

/-- C4 (amended).  Key-omission optionality holds for the top-level
extension substructures: flattenContact emits each of the three
extension keys exactly when the corresponding extension is non-nil.
The five nested French info blocks, however, are always emitted by
flattenContactExtensionFR: their keys are present in every successful
result, holding a nil map value exactly when the source block is nil
(rather than being omitted). -/
theorem flatten_extension_key_optionality :
    (∀ c m, flattenContact (some c) = Except.ok (some m) →
      (((∃ v, lookup m "extension_fr" = some v) ↔ c.extensionFr ≠ none)
       ∧ ((∃ v, lookup m "extension_eu" = some v) ↔ c.extensionEu ≠ none)
       ∧ ((∃ v, lookup m "extension_nl" = some v) ↔ c.extensionNl ≠ none)))
    ∧ (∀ ext m, flattenContactExtensionFR (some ext) = Except.ok (some m) →
      ((∃ v, lookup m "individual_info" = some v)
       ∧ (∃ v, lookup m "duns_info" = some v)
       ∧ (∃ v, lookup m "association_info" = some v)
       ∧ (∃ v, lookup m "trademark_info" = some v)
       ∧ (∃ v, lookup m "code_auth_afnic_info" = some v)
       ∧ (lookup m "individual_info" = some Value.nilMap ↔ ext.individualInfo = none)
       ∧ (lookup m "duns_info" = some Value.nilMap ↔ ext.dunsInfo = none)
       ∧ (lookup m "association_info" = some Value.nilMap ↔ ext.associationInfo = none)
       ∧ (lookup m "trademark_info" = some Value.nilMap ↔ ext.trademarkInfo = none)
       ∧ (lookup m "code_auth_afnic_info" = some Value.nilMap ↔
            ext.codeAuthAfnicInfo = none))) := by
  refine ⟨flattenContact_extension_keys, ?_⟩
  intro ext m h
  obtain ⟨h1, h2, ⟨am, ham, h3⟩, h4, h5⟩ := flattenContactExtensionFR_info_keys ext m h
  refine ⟨⟨_, h1⟩, ⟨_, h2⟩, ⟨_, h3⟩, ⟨_, h4⟩, ⟨_, h5⟩, ?_, ?_, ?_, ?_, ?_⟩
  · rw [h1]
    rcases ext.individualInfo with _ | i <;>
      simp [mapVal, flattenContactExtensionFRIndividualInfo]
  · rw [h2]
    rcases ext.dunsInfo with _ | i <;>
      simp [mapVal, flattenContactExtensionFRDunsInfo]
  · rw [h3]
    rcases hai : ext.associationInfo with _ | i
    · rw [hai] at ham
      simp only [flattenContactExtensionFRAssociationInfo, Except.ok.injEq] at ham
      subst ham
      simp [mapVal]
    · rw [hai] at ham
      rcases hjo : i.publicationJo with _ | t <;>
        simp only [flattenContactExtensionFRAssociationInfo, hjo] at ham
      · exact absurd ham (by simp)
      · simp only [Except.ok.injEq] at ham
        subst ham
        simp [mapVal]
  · rw [h4]
    rcases ext.trademarkInfo with _ | i <;>
      simp [mapVal, flattenContactExtensionFRTrademarkInfo]
  · rw [h5]
    rcases ext.codeAuthAfnicInfo with _ | i <;>
      simp [mapVal, flattenContactExtensionFRCodeAuthAfnicInfo]

theorem flatten_extension_key_optionality_witness :
    lookup allNilInfoExtensionFRFlat "individual_info" = some Value.nilMap ↔
      allNilInfoExtensionFR.individualInfo = none :=
  ((flatten_extension_key_optionality.2 allNilInfoExtensionFR
      allNilInfoExtensionFRFlat rfl).2.2.2.2.2.1)

/-- C1.  Round-trip idempotence: for every contact without extension
substructures, flattening with flattenContact and re-expanding the
resulting flat map with ExpandNewContact succeeds and yields the
new-contact payload built from exactly the contact's literal field
values: required scalars and the two booleans are copied unchanged, and
each optional scalar is forwarded as a present pointer to the same
string (flattenContact always emits its key).  No field the flat map
carries is altered; the contact ID, which the remote API assigns, never
appears in the flat contact map at all. -/
theorem contact_flatten_expand_round_trip (c : Contact)
    (h1 : c.extensionFr = none) (h2 : c.extensionEu = none) (h3 : c.extensionNl = none) :
    (flattenContact (some c) >>= ExpandNewContact) = Except.ok (some {
      phoneNumber := c.phoneNumber, legalForm := c.legalForm,
      firstname := c.firstname, lastname := c.lastname, email := c.email,
      addressLine1 := c.addressLine1, zip := c.zip, city := c.city,
      country := c.country, resale := c.resale, whoisOptIn := c.whoisOptIn,
      companyName := some c.companyName, emailAlt := some c.emailAlt,
      faxNumber := some c.faxNumber, addressLine2 := some c.addressLine2,
      vatIDentificationCode := some c.vatIDentificationCode,
      companyIDentificationCode := some c.companyIDentificationCode,
      state := some c.state,
      extensionFr := none, extensionEu := none, extensionNl := none }) := by
  obtain ⟨pn, lf, fn, ln2, em2, a1, z, ci, co, cn, ea, fx, a2, vat, cid, lg, rs, st, wo,
    efr, eeu, enl⟩ := c
  simp only at h1 h2 h3
  subst h1 h2 h3
  rfl

/-- A concrete extension-free contact for the round-trip. -/
def roundTripContact : Contact := {
  phoneNumber := "+33612345678", legalForm := "individual",
  firstname := "Jane", lastname := "Doe", email := "jane@example.com",
  addressLine1 := "1 rue de Paris", zip := "75001", city := "Paris",
  country := "FR", companyName := "", emailAlt := "alt@example.com",
  faxNumber := "", addressLine2 := "", vatIDentificationCode := "FR123",
  companyIDentificationCode := "", lang := "fr", resale := false,
  state := "", whoisOptIn := true,
  extensionFr := none, extensionEu := none, extensionNl := none }

theorem contact_flatten_expand_round_trip_witness :
    (flattenContact (some roundTripContact) >>= ExpandNewContact) = Except.ok (some {
      phoneNumber := "+33612345678", legalForm := "individual",
      firstname := "Jane", lastname := "Doe", email := "jane@example.com",
      addressLine1 := "1 rue de Paris", zip := "75001", city := "Paris",
      country := "FR", resale := false, whoisOptIn := true,
      companyName := some "", emailAlt := some "alt@example.com",
      faxNumber := some "", addressLine2 := some "",
      vatIDentificationCode := some "FR123",
      companyIDentificationCode := some "", state := some "",
      extensionFr := none, extensionEu := none, extensionNl := none }) :=
  contact_flatten_expand_round_trip roundTripContact rfl rfl rfl

end ScalewayDomain
